import Mathlib

/-!
# Wallet service with Paystack: ledger and reconciliation engine

Shallow embedding of the wallet route handlers of
`src/api/v1/routes/wallet.py` (deposit initiation, Paystack webhook
reconciliation, transfer) over an explicit database state.

Amounts are integers in minor currency units (kobo); Python integers are
unbounded, so they are embedded as `Int`.  The database is a triple of row
lists (wallets, transactions, webhook logs).  Each handler is a pure
function from a request and a database to a response and the database as
committed at the end of the request: staged (uncommitted) session changes
that the handler never commits are discarded, exactly as a closed
SQLAlchemy session discards them.

The entity model bodies (`Wallet.credit` / `Wallet.debit`), the Paystack
utility module and the response helpers are not part of the provided
source tree; they are modelled from the specification where needed and
marked as such in their doc comments.
-/

namespace WalletService

/-- Transaction type enum of `api/v1/models/transaction.py`
(`deposit` | `transfer`). -/
inductive TransactionType where
  | deposit
  | transfer
deriving DecidableEq, Repr

/-- Transaction direction enum (`debit` | `credit`). -/
inductive TransactionDirection where
  | debit
  | credit
deriving DecidableEq, Repr

/-- Transaction status enum (`pending` | `success` | `failed`). -/
inductive TransactionStatus where
  | pending
  | success
  | failed
deriving DecidableEq, Repr

/-- Webhook event data object: the `data` field of a Paystack payload,
read with `data.get("reference")`, `data.get("amount")`,
`data.get("status")`; each key may be absent, hence `Option`. -/
structure EventData where
  reference : Option String
  amount : Option Int
  status : Option String
deriving DecidableEq, Repr

/-- Parsed webhook payload: `payload.get("event")` and
`payload.get("data", \x7b\x7d)`. -/
structure Payload where
  event : Option String
  data : EventData
deriving DecidableEq, Repr

/-- Contextual metadata stored in a transaction's `extra` column:
the full event data for reconciled deposits, or the counterparty wallet
number for the two legs of a transfer. -/
inductive TxExtra where
  | eventData (d : EventData)
  | recipientWallet (wn : String)
  | senderWallet (wn : String)
deriving DecidableEq, Repr

/-- Wallet row: balance in integer minor units, a currency code, a unique
external-facing wallet number, one-to-one owning relation to a user. -/
structure Wallet where
  id : Nat
  user_id : Nat
  wallet_number : String
  balance : Int
  currency : String
deriving DecidableEq, Repr

/-- Transaction row of `api/v1/models/transaction.py`. -/
structure Transaction where
  id : Nat
  reference : String
  wallet_id : Nat
  user_id : Nat
  type : TransactionType
  direction : TransactionDirection
  amount : Int
  status : TransactionStatus
  related_tx_id : Option Nat
  extra : Option TxExtra
deriving DecidableEq, Repr

/-- WebhookLog row: provider name, raw payload, raw headers, processed
flag. -/
structure WebhookLog where
  provider : String
  payload : Payload
  headers : List (String × String)
  processed : Bool
deriving DecidableEq, Repr

/-- Committed database state: the three persisted tables. -/
structure DB where
  wallets : List Wallet
  transactions : List Transaction
  webhook_logs : List WebhookLog
deriving DecidableEq, Repr

/-- Modelled from the spec: `Wallet.credit` of `api/v1/models/wallet.py`
(not under the provided source tree) is a pure in-memory balance
mutation (spec 4.1); the reconciliation call site passes the raw
event-reported amount with no positivity check, so credit is plain
addition. -/
def Wallet.credit (w : Wallet) (a : Int) : Wallet :=
  { w with balance := w.balance + a }

/-- Modelled from the spec: `Wallet.debit` of `api/v1/models/wallet.py`
(not under the provided source tree) is a pure in-memory balance
mutation that fails with `InsufficientFunds` if the resulting balance
would be negative (spec 4.1); callers check before applying. -/
def Wallet.debit (w : Wallet) (a : Int) : Option Wallet :=
  if w.balance - a < 0 then none
  else some { w with balance := w.balance - a }

/-- Lookup `Wallet.fetch_one(db, user_id=uid)`: first wallet row owned by the
user. -/
def fetchWalletByUser (db : DB) (uid : Nat) : Option Wallet :=
  db.wallets.find? (fun w => w.user_id == uid)

/-- Lookup `Wallet.fetch_one(db, wallet_number=wn)`: first wallet row with the
given public wallet number. -/
def fetchWalletByNumber (db : DB) (wn : String) : Option Wallet :=
  db.wallets.find? (fun w => w.wallet_number == wn)

/-- Lookup `Wallet.fetch_one(db, id=wid)`: wallet row by primary key. -/
def fetchWalletById (db : DB) (wid : Nat) : Option Wallet :=
  db.wallets.find? (fun w => w.id == wid)

/-- Lookup `Transaction.fetch_one(db, reference=ref)`: first transaction row
with the given reference. -/
def findTransaction (db : DB) (ref : String) : Option Transaction :=
  db.transactions.find? (fun t => t.reference == ref)

/-- Write-back `wallet.update(db)`: write the row with this primary key back. -/
def updateWalletRow (db : DB) (w : Wallet) : DB :=
  { db with wallets := db.wallets.map (fun x => if x.id == w.id then w else x) }

/-- Write-back `transaction.update(db)`: write the row with this primary key back. -/
def updateTransactionRow (db : DB) (t : Transaction) : DB :=
  { db with transactions := db.transactions.map (fun x => if x.id == t.id then t else x) }

/-- Insert `transaction.insert(db)`: append a new transaction row. -/
def insertTransaction (db : DB) (t : Transaction) : DB :=
  { db with transactions := db.transactions ++ [t] }

/-- Insert `webhook_log.insert(db)` as committed: append a new log row. -/
def appendLog (db : DB) (l : WebhookLog) : DB :=
  { db with webhook_logs := db.webhook_logs ++ [l] }

/-- Outcome of the Paystack gateway call during deposit initiation:
a response with truthy `status` carrying an authorization url, a response
with falsy `status`, or a raised exception (network failure, timeout). -/
inductive GatewayResult where
  | ok (authUrl : Option String)
  | notOk
  | exn (msg : String)
deriving DecidableEq, Repr

/-- Response of the deposit-initiation route (`POST /wallet/deposit`). -/
inductive DepositRes where
  | belowMinimum
  | walletNotFound
  | gatewayError
  | ok (reference : String) (authUrl : Option String)
deriving DecidableEq, Repr

/-- Handler `deposit_to_wallet` of `src/api/v1/routes/wallet.py`: rejects amounts
below 100 kobo, creates a `PENDING` deposit transaction (committed), then
calls the gateway; any gateway failure (falsy status or exception) marks
the transaction `FAILED` and surfaces a 500 error.  The fresh reference
and transaction id, and the gateway outcome, are passed as parameters. -/
def deposit_to_wallet (amount : Int) (uid txId : Nat) (ref : String)
    (gw : GatewayResult) (db : DB) : DepositRes × DB :=
  if amount < 100 then (.belowMinimum, db)
  else
    match fetchWalletByUser db uid with
    | none => (.walletNotFound, db)
    | some wallet =>
      let tx : Transaction :=
        { id := txId, reference := ref, wallet_id := wallet.id, user_id := uid,
          type := .deposit, direction := .credit, amount := amount,
          status := .pending, related_tx_id := none, extra := none }
      let db1 := insertTransaction db tx
      match gw with
      | .ok url => (.ok ref url, db1)
      | .notOk => (.gatewayError, updateTransactionRow db1 { tx with status := .failed })
      | .exn _ => (.gatewayError, updateTransactionRow db1 { tx with status := .failed })

/-- Inbound webhook request: the optional `x-paystack-signature` header,
the raw body bytes, the headers, and the body's JSON parse. -/
structure WebhookRequest where
  signature : Option String
  body : String
  headers : List (String × String)
  payload : Payload

/-- Response of the webhook route (`POST /wallet/paystack/webhook`):
400 for a missing signature, 401 for an invalid one, a 500 from the
unhandled `TypeError` when `wallet.credit` receives an absent amount, or
the `\x7b"status": True\x7d` acknowledgment. -/
inductive WebhookRes where
  | missingSignature
  | invalidSignature
  | typeError
  | ack
deriving DecidableEq, Repr

/-- Builds the WebhookLog row the handler stages; `processed` is set to
the value it holds at commit time. -/
def mkWebhookLog (p : Payload) (hs : List (String × String)) (processed : Bool) : WebhookLog :=
  { provider := "paystack", payload := p, headers := hs, processed := processed }

/-- Handler `paystack_webhook` of `src/api/v1/routes/wallet.py`.  The signature
verifier (`verify_paystack_signature`, `api/utils/paystack.py`, not under
the provided source tree) is modelled from the spec as an abstract
boolean predicate over the raw body and the signature header, passed as
a parameter.  The handler stages a WebhookLog row with `commit=False`;
only paths that reach a `db.commit()` persist it (every such path first
sets `processed = True`), and all changes staged on a path commit
together at that single `db.commit()`.  Paths that return or raise
without committing leave the database unchanged. -/
def paystack_webhook (verify : String → String → Bool)
    (req : WebhookRequest) (db : DB) : WebhookRes × DB :=
  match req.signature with
  | none => (.missingSignature, db)
  | some sig =>
    if verify req.body sig = false then (.invalidSignature, db)
    else
      let log := mkWebhookLog req.payload req.headers true
      if req.payload.event ≠ some "charge.success" then (.ack, db)
      else
        let d := req.payload.data
        match d.reference with
        | none => (.ack, appendLog db log)
        | some ref =>
          if ref = "" then (.ack, appendLog db log)
          else
            match findTransaction db ref with
            | none => (.ack, appendLog db log)
            | some tx =>
              if tx.status = .success then (.ack, appendLog db log)
              else if d.status = some "success" then
                match d.amount with
                | none => (.typeError, db)
                | some a =>
                  let tx1 : Transaction :=
                    { tx with status := .success, extra := some (.eventData d) }
                  let db1 :=
                    match fetchWalletById db tx.wallet_id with
                    | some w => updateWalletRow db (w.credit a)
                    | none => db
                  (.ack, appendLog (updateTransactionRow db1 tx1) log)
              else (.ack, appendLog db log)

/-- Transfer request body: recipient public wallet number and amount in
kobo. -/
structure TransferRequest where
  wallet_number : String
  amount : Int
deriving DecidableEq, Repr

/-- Response of the transfer route (`POST /wallet/transfer`).
`insufficient` is the non-fatal `fail_response` carrying the current
balance and the required amount as context; the others are raised
HTTP errors or the success payload. -/
inductive TransferRes where
  | invalidAmount
  | senderNotFound
  | insufficient (balance required : Int)
  | recipientNotFound
  | selfTransfer
  | success (reference : String) (amount : Int) (recipient : String)
deriving DecidableEq, Repr

/-- The debit-leg transaction row a transfer creates on the sender. -/
def mkDebitTx (did : Nat) (ref : String) (sender : Wallet) (uid : Nat)
    (amount : Int) (recipientNumber : String) (cid : Nat) : Transaction :=
  { id := did, reference := ref ++ "_debit", wallet_id := sender.id, user_id := uid,
    type := .transfer, direction := .debit, amount := amount,
    status := .success, related_tx_id := some cid,
    extra := some (.recipientWallet recipientNumber) }

/-- The credit-leg transaction row a transfer creates on the recipient. -/
def mkCreditTx (cid : Nat) (ref : String) (recipient : Wallet)
    (amount : Int) (senderNumber : String) (did : Nat) : Transaction :=
  { id := cid, reference := ref ++ "_credit", wallet_id := recipient.id,
    user_id := recipient.user_id,
    type := .transfer, direction := .credit, amount := amount,
    status := .success, related_tx_id := some did,
    extra := some (.senderWallet senderNumber) }

/-- Handler `transfer_funds` of `src/api/v1/routes/wallet.py`.  Validation in
source order: amount positivity, sender resolution, balance sufficiency,
recipient resolution by wallet number, self-transfer rejection.  Then the
two linked transaction rows, the sender debit and the recipient credit
are committed as one atomic unit.  The fresh reference prefix and the two
fresh transaction ids are passed as parameters. -/
def transfer_funds (req : TransferRequest) (uid : Nat) (ref : String)
    (did cid : Nat) (db : DB) : TransferRes × DB :=
  if req.amount ≤ 0 then (.invalidAmount, db)
  else
    match fetchWalletByUser db uid with
    | none => (.senderNotFound, db)
    | some sender =>
      if sender.balance < req.amount then
        (.insufficient sender.balance req.amount, db)
      else
        match fetchWalletByNumber db req.wallet_number with
        | none => (.recipientNotFound, db)
        | some recipient =>
          if recipient.id = sender.id then (.selfTransfer, db)
          else
            let dtx := mkDebitTx did ref sender uid req.amount req.wallet_number cid
            let ctx := mkCreditTx cid ref recipient req.amount sender.wallet_number did
            match sender.debit req.amount with
            | none => (.insufficient sender.balance req.amount, db)
            | some sender1 =>
              let recipient1 := recipient.credit req.amount
              let db1 := insertTransaction (insertTransaction db dtx) ctx
              let db2 := updateWalletRow (updateWalletRow db1 sender1) recipient1
              (.success ref req.amount req.wallet_number, db2)

/-- Balance of the wallet row with the given primary key, when present. -/
def getBalance (db : DB) (wid : Nat) : Option Int :=
  (fetchWalletById db wid).map (fun w => w.balance)

/-- One ledger-mutating request, for stating operation-sequence
invariants: a deposit initiation, a webhook delivery, or a transfer. -/
inductive Op where
  | deposit (amount : Int) (uid txId : Nat) (ref : String) (gw : GatewayResult)
  | webhook (verify : String → String → Bool) (req : WebhookRequest)
  | transfer (req : TransferRequest) (uid : Nat) (ref : String) (did cid : Nat)

/-- The committed database after one request, whatever the response. -/
def applyOp (op : Op) (db : DB) : DB :=
  match op with
  | .deposit a u t r g => (deposit_to_wallet a u t r g db).2
  | .webhook v r => (paystack_webhook v r db).2
  | .transfer r u rf d c => (transfer_funds r u rf d c db).2

/-- Every webhook amount the operation can credit is nonnegative;
vacuously true for deposits and transfers. -/
def opAmountsNonneg : Op → Prop
  | .deposit _ _ _ _ _ => True
  | .webhook _ r => ∀ a : Int, r.payload.data.amount = some a → 0 ≤ a
  | .transfer _ _ _ _ _ => True

/-! ## Concrete fixtures

Small concrete databases and requests, used to instantiate the theorems
below on explicit inputs (the 5000/0 scenario comes from the spec's
concrete test scenario). -/

/-- A signature verifier that accepts everything; stands for a correct
shared secret. -/
def vTrue : String → String → Bool := fun _ _ => true

def exWalletA : Wallet :=
  { id := 1, user_id := 1, wallet_number := "W1", balance := 5000, currency := "NGN" }

def exWalletB : Wallet :=
  { id := 2, user_id := 2, wallet_number := "B-001", balance := 0, currency := "NGN" }

def exWalletLow : Wallet :=
  { id := 1, user_id := 1, wallet_number := "W1", balance := 50, currency := "NGN" }

def exWalletMid : Wallet :=
  { id := 1, user_id := 1, wallet_number := "W1", balance := 500, currency := "NGN" }

def exWalletZero : Wallet :=
  { id := 1, user_id := 1, wallet_number := "W1", balance := 0, currency := "NGN" }

def exDB : DB := { wallets := [exWalletA, exWalletB], transactions := [], webhook_logs := [] }

/-- A pending 500-kobo deposit with reference `dep_a` on wallet 1. -/
def exPend : Transaction :=
  { id := 7, reference := "dep_a", wallet_id := 1, user_id := 1,
    type := .deposit, direction := .credit, amount := 500,
    status := .pending, related_tx_id := none, extra := none }

def exDBPend : DB :=
  { wallets := [exWalletA, exWalletB], transactions := [exPend], webhook_logs := [] }

def exFailedTx : Transaction := { exPend with status := .failed }

def exDBFailed : DB :=
  { wallets := [exWalletA], transactions := [exFailedTx], webhook_logs := [] }

def exSuccTx : Transaction := { exPend with status := .success }

def exDBSucc : DB :=
  { wallets := [exWalletA], transactions := [exSuccTx], webhook_logs := [] }

def exDBZero : DB :=
  { wallets := [exWalletZero], transactions := [exPend], webhook_logs := [] }

def exDBLow : DB := { wallets := [exWalletLow], transactions := [], webhook_logs := [] }

def exDBMid : DB := { wallets := [exWalletMid], transactions := [], webhook_logs := [] }

/-- A well-formed successful confirmation event for `dep_a`. -/
def exReqSuccess : WebhookRequest :=
  { signature := some "sig", body := "raw", headers := [],
    payload := { event := some "charge.success",
                 data := { reference := some "dep_a", amount := some 500,
                           status := some "success" } } }

/-- A validly signed confirmation event reporting a negative amount. -/
def exReqNeg : WebhookRequest :=
  { signature := some "sig", body := "raw", headers := [],
    payload := { event := some "charge.success",
                 data := { reference := some "dep_a", amount := some (-5),
                           status := some "success" } } }

/-- A validly signed event of a type other than `charge.success`. -/
def exReqOther : WebhookRequest :=
  { signature := some "sig", body := "raw", headers := [],
    payload := { event := some "charge.failed",
                 data := { reference := some "dep_a", amount := some 500,
                           status := some "failed" } } }

/-- A request with no `x-paystack-signature` header. -/
def exReqNoSig : WebhookRequest :=
  { signature := none, body := "raw", headers := [],
    payload := { event := some "charge.success",
                 data := { reference := some "dep_a", amount := some 500,
                           status := some "success" } } }

def exTReq : TransferRequest := { wallet_number := "B-001", amount := 2000 }

/-! ## List lemmas about row lookup and row update -/

/-- Updating every row selected by `q` to `v` makes a `p`-lookup that used
to succeed on a `q`-row return `v`, provided `v` itself satisfies `p`. -/
theorem find?_map_update_of_found {α : Type} (l : List α) (p q : α → Bool) (v x : α)
    (hfind : l.find? p = some x) (hqx : q x = true) (hpv : p v = true) :
    (l.map (fun y => if q y then v else y)).find? p = some v := by
  induction l with
  | nil => simp at hfind
  | cons h t ih =>
    by_cases hph : p h = true
    · rw [List.find?_cons_of_pos _ hph] at hfind
      obtain rfl : x = h := by simpa using hfind.symm
      simp only [List.map_cons, hqx, if_true]
      exact List.find?_cons_of_pos _ hpv
    · rw [List.find?_cons_of_neg _ (by simpa using hph)] at hfind
      by_cases hqh : q h = true
      · simp only [List.map_cons, hqh, if_true]
        exact List.find?_cons_of_pos _ hpv
      · simp only [List.map_cons, hqh, if_false]
        rw [List.find?_cons_of_neg _ (by simpa using hph)]
        exact ih hfind

/-- Updating rows selected by `q` does not change a `p`-lookup when no
`q`-row and not the new value satisfy `p`. -/
theorem find?_map_update_of_disjoint {α : Type} (l : List α) (p q : α → Bool) (v : α)
    (hpv : p v = false) (hdisj : ∀ y, q y = true → p y = false) :
    (l.map (fun y => if q y then v else y)).find? p = l.find? p := by
  induction l with
  | nil => simp
  | cons h t ih =>
    by_cases hqh : q h = true
    · simp only [List.map_cons, hqh, if_true]
      rw [List.find?_cons_of_neg _ (by simp [hpv]),
        List.find?_cons_of_neg _ (by simp [hdisj h hqh])]
      exact ih
    · simp only [List.map_cons, if_neg hqh]
      by_cases hph : p h = true
      · rw [List.find?_cons_of_pos _ hph, List.find?_cons_of_pos _ hph]
      · rw [List.find?_cons_of_neg _ (by simpa using hph),
          List.find?_cons_of_neg _ (by simpa using hph)]
        exact ih

/-- A lookup over an appended row falls through to the new row when the
prefix has no match. -/
theorem find?_append_none {α : Type} (l : List α) (p : α → Bool) (x : α)
    (h : l.find? p = none) :
    (l ++ [x]).find? p = if p x then some x else none := by
  induction l with
  | nil => by_cases hpx : p x = true <;> simp [List.find?, hpx]
  | cons hd t ih =>
    by_cases hph : p hd = true
    · rw [List.find?_cons_of_pos _ hph] at h; exact absurd h (by simp)
    · rw [List.find?_cons_of_neg _ (by simpa using hph)] at h
      simp only [List.cons_append]
      rw [List.find?_cons_of_neg _ (by simpa using hph)]
      exact ih h

/-- Every member of an updated row list is the new value or an original
row. -/
theorem mem_map_update {α : Type} {l : List α} {q : α → Bool} {v y : α}
    (h : y ∈ l.map (fun x => if q x then v else x)) :
    y = v ∨ y ∈ l := by
  obtain ⟨x, hx, hxy⟩ := List.mem_map.mp h
  by_cases hqx : q x = true
  · left; rw [← hxy]; simp [hqx]
  · right; rw [← hxy]; simpa [hqx] using hx

/-- A successful lookup by one key yields a row; a lookup by that row's
primary key then also succeeds, on a row sharing the primary key. -/
theorem find?_of_mem_sat {α : Type} (l : List α) (p : α → Bool) (x : α)
    (hx : x ∈ l) (hpx : p x = true) :
    ∃ z, l.find? p = some z ∧ p z = true := by
  have hsome : (l.find? p).isSome := List.find?_isSome.mpr ⟨x, hx, hpx⟩
  obtain ⟨z, hz⟩ := Option.isSome_iff_exists.mp hsome
  exact ⟨z, hz, List.find?_some hz⟩

/-! ## Handler-level helper lemmas -/

/-- Deposit initiation never touches any wallet row. -/
theorem deposit_wallets_unchanged (amount : Int) (uid txId : Nat) (ref : String)
    (gw : GatewayResult) (db : DB) :
    (deposit_to_wallet amount uid txId ref gw db).2.wallets = db.wallets := by
  unfold deposit_to_wallet
  split
  · rfl
  · split
    · rfl
    · split <;> simp [insertTransaction, updateTransactionRow]

/-- Full evaluation of the webhook handler on a validly signed successful
confirmation of a pending transaction whose wallet exists: the wallet is
credited by the event amount, the transaction is marked successful with
the event data attached, and the log row commits with them. -/
theorem reconcile_success_eq (verify : String → String → Bool)
    (req : WebhookRequest) (db : DB) (s ref : String) (tx : Transaction)
    (w : Wallet) (a : Int)
    (hsig : req.signature = some s)
    (hv : verify req.body s = true)
    (hev : req.payload.event = some "charge.success")
    (href : req.payload.data.reference = some ref)
    (hrefne : ref ≠ "")
    (hfind : findTransaction db ref = some tx)
    (hnotsucc : tx.status ≠ .success)
    (hst : req.payload.data.status = some "success")
    (hamt : req.payload.data.amount = some a)
    (hw : fetchWalletById db tx.wallet_id = some w) :
    paystack_webhook verify req db =
      (.ack,
       appendLog
         (updateTransactionRow (updateWalletRow db (Wallet.credit w a))
           { tx with status := .success, extra := some (.eventData req.payload.data) })
         (mkWebhookLog req.payload req.headers true)) := by
  unfold paystack_webhook
  simp only [hsig, hv, hev, href, hfind, hst, hamt, hw,
    Bool.true_eq_false, if_false, ne_eq, not_true_eq_false,
    if_neg hrefne, if_neg hnotsucc, if_pos rfl, if_true]

/-- Full evaluation of the webhook handler on a validly signed
`charge.success` event whose reference resolves to an already successful
transaction: only the log row commits. -/
theorem reconcile_already_success_eq (verify : String → String → Bool)
    (req : WebhookRequest) (db : DB) (s ref : String) (tx : Transaction)
    (hsig : req.signature = some s)
    (hv : verify req.body s = true)
    (hev : req.payload.event = some "charge.success")
    (href : req.payload.data.reference = some ref)
    (hrefne : ref ≠ "")
    (hfind : findTransaction db ref = some tx)
    (hsucc : tx.status = .success) :
    paystack_webhook verify req db =
      (.ack, appendLog db (mkWebhookLog req.payload req.headers true)) := by
  unfold paystack_webhook
  simp only [hsig, hv, hev, href, hfind,
    Bool.true_eq_false, if_false, ne_eq, not_true_eq_false,
    if_neg hrefne, if_pos hsucc]

/-- Crediting the wallet found by id and writing it back makes the
balance at that id the old balance plus the credited amount. -/
theorem getBalance_after_credit (db : DB) (wid : Nat) (w : Wallet) (a : Int)
    (hw : fetchWalletById db wid = some w) :
    getBalance (updateWalletRow db (Wallet.credit w a)) wid = some (w.balance + a) := by
  have hpw : (w.id == wid) = true := by
    simpa [fetchWalletById] using List.find?_some hw
  have h := find?_map_update_of_found db.wallets (fun x => x.id == wid)
    (fun x => x.id == (Wallet.credit w a).id) (Wallet.credit w a) w
    (by simpa [fetchWalletById] using hw) (by simp [Wallet.credit]) (by simpa [Wallet.credit] using hpw)
  simp only [getBalance, fetchWalletById, updateWalletRow, h, Option.map_some]
  rfl

/-- Writing back a row that keeps the reference of the row a lookup
found makes the lookup return the written row. -/
theorem findTransaction_update (db : DB) (ref : String) (tx tx1 : Transaction)
    (hfind : findTransaction db ref = some tx)
    (hid : tx1.id = tx.id) (href : tx1.reference = tx.reference) :
    findTransaction (updateTransactionRow db tx1) ref = some tx1 := by
  have hptx : (tx.reference == ref) = true := by
    simpa [findTransaction] using List.find?_some hfind
  have h := find?_map_update_of_found db.transactions (fun t => t.reference == ref)
    (fun t => t.id == tx1.id) tx1 tx
    (by simpa [findTransaction] using hfind) (by simp [hid]) (by simpa [href] using hptx)
  simpa [findTransaction, updateTransactionRow] using h

@[simp]
theorem appendLog_wallets (db : DB) (l : WebhookLog) :
    (appendLog db l).wallets = db.wallets := rfl

@[simp]
theorem appendLog_transactions (db : DB) (l : WebhookLog) :
    (appendLog db l).transactions = db.transactions := rfl

@[simp]
theorem updateTransactionRow_wallets (db : DB) (t : Transaction) :
    (updateTransactionRow db t).wallets = db.wallets := rfl

@[simp]
theorem updateWalletRow_transactions (db : DB) (w : Wallet) :
    (updateWalletRow db w).transactions = db.transactions := rfl

@[simp]
theorem updateWalletRow_logs (db : DB) (w : Wallet) :
    (updateWalletRow db w).webhook_logs = db.webhook_logs := rfl

@[simp]
theorem updateTransactionRow_logs (db : DB) (t : Transaction) :
    (updateTransactionRow db t).webhook_logs = db.webhook_logs := rfl

/-! ## Claim theorems -/

/-- Claim C10: on a validly signed `charge.success` event whose
`data.status` is `"success"` and whose reference resolves to a pending
deposit, reconciliation credits the wallet by exactly the event's
reported amount `a` — an arbitrary integer, with no comparison against
the transaction's stored amount and no positivity check — while the
transaction row keeps its original `amount` field and is marked
successful with the event data attached. -/
theorem webhook_credits_event_amount (verify : String → String → Bool)
    (req : WebhookRequest) (db : DB) (s ref : String) (tx : Transaction)
    (w : Wallet) (a : Int)
    (hsig : req.signature = some s)
    (hv : verify req.body s = true)
    (hev : req.payload.event = some "charge.success")
    (href : req.payload.data.reference = some ref)
    (hrefne : ref ≠ "")
    (hfind : findTransaction db ref = some tx)
    (hpend : tx.status = .pending)
    (hst : req.payload.data.status = some "success")
    (hamt : req.payload.data.amount = some a)
    (hw : fetchWalletById db tx.wallet_id = some w) :
    (paystack_webhook verify req db).1 = .ack ∧
    getBalance (paystack_webhook verify req db).2 tx.wallet_id = some (w.balance + a) ∧
    findTransaction (paystack_webhook verify req db).2 ref =
      some { tx with status := .success, extra := some (.eventData req.payload.data) } := by
  rw [reconcile_success_eq verify req db s ref tx w a hsig hv hev href hrefne hfind
    (by simp [hpend]) hst hamt hw]
  refine ⟨rfl, ?_, ?_⟩
  · exact getBalance_after_credit db tx.wallet_id w a hw
  · exact findTransaction_update (updateWalletRow db (Wallet.credit w a)) ref tx
      { tx with status := .success, extra := some (.eventData req.payload.data) }
      hfind rfl rfl

/-- Claim C10 witness: on the 5000-kobo wallet with the pending 500-kobo
deposit `dep_a`, a confirmation reporting amount -5 (differing from the
stored 500 and not even positive) changes the balance by -5 and marks the
transaction successful with its stored amount intact. -/
theorem webhook_credits_event_amount_witness :
    (paystack_webhook vTrue exReqNeg exDBPend).1 = .ack ∧
    getBalance (paystack_webhook vTrue exReqNeg exDBPend).2 1 = some (5000 + -5) ∧
    findTransaction (paystack_webhook vTrue exReqNeg exDBPend).2 "dep_a" =
      some { exPend with
               status := .success,
               extra := some (.eventData exReqNeg.payload.data) } := by
  have h := webhook_credits_event_amount vTrue exReqNeg exDBPend "sig" "dep_a"
    exPend exWalletA (-5) rfl rfl rfl rfl (by decide) rfl rfl rfl rfl rfl
  exact h

/-- Claim C1: delivering an identical successful deposit-confirmation
(`charge.success`) webhook event twice credits the owning wallet exactly
once.  The first delivery transitions the pending transaction to
successful and credits the wallet by the event amount; the second
delivery of the very same event is acknowledged and changes neither the
transaction table nor any wallet balance. -/
theorem webhook_replay_credits_once (verify : String → String → Bool)
    (req : WebhookRequest) (db : DB) (s ref : String) (tx : Transaction)
    (w : Wallet) (a : Int)
    (hsig : req.signature = some s)
    (hv : verify req.body s = true)
    (hev : req.payload.event = some "charge.success")
    (href : req.payload.data.reference = some ref)
    (hrefne : ref ≠ "")
    (hfind : findTransaction db ref = some tx)
    (hpend : tx.status = .pending)
    (hst : req.payload.data.status = some "success")
    (hamt : req.payload.data.amount = some a)
    (hw : fetchWalletById db tx.wallet_id = some w) :
    (paystack_webhook verify req db).1 = .ack ∧
    getBalance (paystack_webhook verify req db).2 tx.wallet_id = some (w.balance + a) ∧
    findTransaction (paystack_webhook verify req db).2 ref =
      some { tx with status := .success, extra := some (.eventData req.payload.data) } ∧
    (paystack_webhook verify req (paystack_webhook verify req db).2).1 = .ack ∧
    (paystack_webhook verify req (paystack_webhook verify req db).2).2.wallets =
      (paystack_webhook verify req db).2.wallets ∧
    (paystack_webhook verify req (paystack_webhook verify req db).2).2.transactions =
      (paystack_webhook verify req db).2.transactions := by
  have h1 := reconcile_success_eq verify req db s ref tx w a hsig hv hev href hrefne hfind
    (by simp [hpend]) hst hamt hw
  have hfind1 : findTransaction (paystack_webhook verify req db).2 ref =
      some { tx with status := .success, extra := some (.eventData req.payload.data) } := by
    rw [h1]
    exact findTransaction_update (updateWalletRow db (Wallet.credit w a)) ref tx
      { tx with status := .success, extra := some (.eventData req.payload.data) }
      hfind rfl rfl
  have h2 := reconcile_already_success_eq verify req (paystack_webhook verify req db).2 s ref
    { tx with status := .success, extra := some (.eventData req.payload.data) }
    hsig hv hev href hrefne hfind1 rfl
  refine ⟨?_, ?_, hfind1, ?_, ?_, ?_⟩
  · rw [h1]
  · rw [h1]; exact getBalance_after_credit db tx.wallet_id w a hw
  · rw [h2]
  · simp [h2]
  · simp [h2]

/-- Claim C1 witness: the 500-kobo confirmation of `dep_a` delivered
twice to the 5000-kobo wallet yields balance 5500 after the first
delivery and an unchanged ledger after the second. -/
theorem webhook_replay_credits_once_witness :
    (paystack_webhook vTrue exReqSuccess exDBPend).1 = .ack ∧
    getBalance (paystack_webhook vTrue exReqSuccess exDBPend).2 1 = some (5000 + 500) ∧
    findTransaction (paystack_webhook vTrue exReqSuccess exDBPend).2 "dep_a" =
      some { exPend with
               status := .success,
               extra := some (.eventData exReqSuccess.payload.data) } ∧
    (paystack_webhook vTrue exReqSuccess (paystack_webhook vTrue exReqSuccess exDBPend).2).1 = .ack ∧
    (paystack_webhook vTrue exReqSuccess (paystack_webhook vTrue exReqSuccess exDBPend).2).2.wallets =
      (paystack_webhook vTrue exReqSuccess exDBPend).2.wallets ∧
    (paystack_webhook vTrue exReqSuccess (paystack_webhook vTrue exReqSuccess exDBPend).2).2.transactions =
      (paystack_webhook vTrue exReqSuccess exDBPend).2.transactions := by
  exact webhook_replay_credits_once vTrue exReqSuccess exDBPend "sig" "dep_a"
    exPend exWalletA 500 rfl rfl rfl rfl (by decide) rfl rfl rfl rfl rfl

/-- Claim C5 counterexample: a deposit transaction in the terminal
`FAILED` state is not protected by the idempotency check (which tests
only for `SUCCESS`): a later validly signed `charge.success` event for
its reference transitions it to `SUCCESS` and credits the wallet, so a
terminal status can transition again, contrary to the claim. -/
theorem webhook_failed_status_revived_cex :
    exFailedTx.status = .failed ∧
    (paystack_webhook vTrue exReqSuccess exDBFailed).1 = .ack ∧
    findTransaction (paystack_webhook vTrue exReqSuccess exDBFailed).2 "dep_a" =
      some { exFailedTx with
               status := .success,
               extra := some (.eventData exReqSuccess.payload.data) } ∧
    getBalance (paystack_webhook vTrue exReqSuccess exDBFailed).2 1 = some 5500 := by
  decide

/-- Claim C5 amended: for every deposit transaction whose status is
`SUCCESS` (the only status the idempotency check guards; a `FAILED`
transaction can still be revived by a success event), any later validly
signed webhook event carrying that transaction's reference is a no-op —
the transaction table and every wallet balance stay unchanged and the
event is acknowledged — and likewise an event whose reference matches no
transaction is acknowledged as a no-op without raising. -/
theorem webhook_settled_or_unknown_noop (verify : String → String → Bool)
    (req : WebhookRequest) (db : DB) (s ref : String)
    (hsig : req.signature = some s)
    (hv : verify req.body s = true)
    (href : req.payload.data.reference = some ref)
    (hcase : findTransaction db ref = none ∨
             ∃ tx, findTransaction db ref = some tx ∧ tx.status = .success) :
    (paystack_webhook verify req db).1 = .ack ∧
    (paystack_webhook verify req db).2.wallets = db.wallets ∧
    (paystack_webhook verify req db).2.transactions = db.transactions := by
  unfold paystack_webhook
  simp only [hsig, hv, Bool.true_eq_false, if_false, href]
  by_cases hev : req.payload.event = some "charge.success"
  · simp only [hev, ne_eq, not_true_eq_false, if_false]
    by_cases hre : ref = ""
    · simp [hre, appendLog]
    · simp only [if_neg hre]
      rcases hcase with hnone | ⟨tx, htx, hsucc⟩
      · simp [hnone, appendLog]
      · simp [htx, hsucc, appendLog]
  · simp [hev, appendLog]

/-- Claim C5 witness: a second delivery of the `dep_a` confirmation to a
ledger where `dep_a` is already successful leaves wallets and
transactions untouched and is acknowledged. -/
theorem webhook_settled_or_unknown_noop_witness :
    (paystack_webhook vTrue exReqSuccess exDBSucc).1 = .ack ∧
    (paystack_webhook vTrue exReqSuccess exDBSucc).2.wallets = exDBSucc.wallets ∧
    (paystack_webhook vTrue exReqSuccess exDBSucc).2.transactions = exDBSucc.transactions := by
  exact webhook_settled_or_unknown_noop vTrue exReqSuccess exDBSucc "sig" "dep_a"
    rfl rfl rfl (Or.inr ⟨exSuccTx, rfl, rfl⟩)

/-- Claim C6: an inbound webhook request with a missing or invalid
signature is rejected with an authentication failure (400 for missing,
401 for invalid) before any durable write or business effect: the
committed database is exactly the one before the request — no WebhookLog
row, no transaction mutation, no balance change. -/
theorem webhook_bad_signature_rejected (verify : String → String → Bool)
    (req : WebhookRequest) (db : DB)
    (h : req.signature = none ∨
         ∃ s, req.signature = some s ∧ verify req.body s = false) :
    (paystack_webhook verify req db).2 = db ∧
    ((paystack_webhook verify req db).1 = .missingSignature ∨
     (paystack_webhook verify req db).1 = .invalidSignature) := by
  rcases h with h | ⟨s, hs, hv⟩
  · unfold paystack_webhook
    simp [h]
  · unfold paystack_webhook
    simp [hs, hv]

/-- Claim C6 witness: a request with no signature header leaves the
example ledger untouched and is rejected. -/
theorem webhook_bad_signature_rejected_witness :
    (paystack_webhook vTrue exReqNoSig exDBPend).2 = exDBPend ∧
    ((paystack_webhook vTrue exReqNoSig exDBPend).1 = .missingSignature ∨
     (paystack_webhook vTrue exReqNoSig exDBPend).1 = .invalidSignature) := by
  exact webhook_bad_signature_rejected vTrue exReqNoSig exDBPend (Or.inl rfl)

/-- Claim C7 counterexample: a validly signed event whose type is not
`charge.success` is acknowledged, yet the staged WebhookLog row is never
committed — the handler returns without a `db.commit()` on that path —
so no log row is durably written, contradicting an unconditional
durability-first log for every event type. -/
theorem webhook_log_dropped_cex :
    (paystack_webhook vTrue exReqOther exDBPend).1 = .ack ∧
    (paystack_webhook vTrue exReqOther exDBPend).2.webhook_logs = [] := by
  decide

/-- Claim C7 amended: for a validly signed event of type
`charge.success` that the handler acknowledges, a WebhookLog row with
`processed = true` is committed, in the same atomic commit as any
business effect; for a validly signed event of any other type the staged
log row is discarded when the request ends, so nothing durable changes at
all. -/
theorem webhook_log_commit_spec (verify : String → String → Bool)
    (req : WebhookRequest) (db : DB) (s : String)
    (hsig : req.signature = some s)
    (hv : verify req.body s = true) :
    ((req.payload.event = some "charge.success" ∧
        (paystack_webhook verify req db).1 = .ack) →
      (paystack_webhook verify req db).2.webhook_logs =
        db.webhook_logs ++ [mkWebhookLog req.payload req.headers true]) ∧
    (req.payload.event ≠ some "charge.success" →
      (paystack_webhook verify req db).2 = db) := by
  unfold paystack_webhook
  simp only [hsig, hv, Bool.true_eq_false, if_false]
  by_cases hev : req.payload.event = some "charge.success"
  · simp only [hev, ne_eq, not_true_eq_false, if_false]
    refine ⟨?_, fun h => h.elim⟩
    rintro ⟨-, hack⟩
    rcases hre : req.payload.data.reference with _ | ref
    · simp [hre, appendLog]
    · simp only [hre]
      by_cases hempty : ref = ""
      · simp [hempty, appendLog]
      · simp only [if_neg hempty]
        rcases hft : findTransaction db ref with _ | tx
        · simp [hft, appendLog]
        · simp only [hft]
          by_cases hsucc : tx.status = .success
          · simp [hsucc, appendLog]
          · simp only [if_neg hsucc]
            by_cases hst : req.payload.data.status = some "success"
            · simp only [if_pos hst]
              rcases hamt : req.payload.data.amount with _ | a
              · rw [hre] at hack
                simp only [hamt, hre, hft, if_neg hsucc, if_pos hst,
                  if_neg hempty, hev] at hack
                exact absurd hack (by decide)
              · rcases hfw : fetchWalletById db tx.wallet_id with _ | w <;>
                  simp [hamt, hfw, appendLog]
            · simp [hst, appendLog]
  · simp [hev]

/-- Claim C7 witness: the successful `dep_a` confirmation commits its
processed log row together with the credit. -/
theorem webhook_log_commit_spec_witness :
    (paystack_webhook vTrue exReqSuccess exDBPend).2.webhook_logs =
      exDBPend.webhook_logs ++
        [mkWebhookLog exReqSuccess.payload exReqSuccess.headers true] := by
  exact (webhook_log_commit_spec vTrue exReqSuccess exDBPend "sig" rfl rfl).1
    ⟨rfl, by decide⟩

/-- Claim C8: when the gateway charge initiation fails — a falsy gateway
response or a raised exception — the previously created pending deposit
transaction ends up `FAILED` (never left pending), the failure surfaces
to the caller as a 500 error, and no wallet row changes at any point of
initiation. -/
theorem deposit_gateway_failure_marks_failed (amount : Int) (uid txId : Nat)
    (ref : String) (gw : GatewayResult) (db : DB) (w : Wallet)
    (hmin : ¬ amount < 100)
    (hw : fetchWalletByUser db uid = some w)
    (hfresh : findTransaction db ref = none)
    (hgw : gw = .notOk ∨ ∃ msg, gw = .exn msg) :
    (deposit_to_wallet amount uid txId ref gw db).1 = .gatewayError ∧
    (deposit_to_wallet amount uid txId ref gw db).2.wallets = db.wallets ∧
    findTransaction (deposit_to_wallet amount uid txId ref gw db).2 ref =
      some { id := txId, reference := ref, wallet_id := w.id, user_id := uid,
             type := .deposit, direction := .credit, amount := amount,
             status := .failed, related_tx_id := none, extra := none } := by
  have hfound : findTransaction (insertTransaction db
      { id := txId, reference := ref, wallet_id := w.id, user_id := uid,
        type := .deposit, direction := .credit, amount := amount,
        status := .pending, related_tx_id := none, extra := none }) ref =
      some { id := txId, reference := ref, wallet_id := w.id, user_id := uid,
             type := .deposit, direction := .credit, amount := amount,
             status := .pending, related_tx_id := none, extra := none } := by
    unfold findTransaction at hfresh
    unfold findTransaction insertTransaction
    rw [find?_append_none _ _ _ hfresh]
    simp
  have hupd := findTransaction_update _ ref _
    { id := txId, reference := ref, wallet_id := w.id, user_id := uid,
      type := .deposit, direction := .credit, amount := amount,
      status := .failed, related_tx_id := none, extra := none } hfound rfl rfl
  rcases hgw with rfl | ⟨msg, rfl⟩ <;>
    · unfold deposit_to_wallet
      rw [if_neg hmin, hw]
      exact ⟨rfl, rfl, hupd⟩

/-- Claim C8 witness: a 500-kobo initiation whose gateway call raises
leaves wallets untouched and a `FAILED` transaction behind. -/
theorem deposit_gateway_failure_marks_failed_witness :
    (deposit_to_wallet 500 1 7 "dep_a" (.exn "timeout") exDB).1 = .gatewayError ∧
    (deposit_to_wallet 500 1 7 "dep_a" (.exn "timeout") exDB).2.wallets = exDB.wallets ∧
    findTransaction (deposit_to_wallet 500 1 7 "dep_a" (.exn "timeout") exDB).2 "dep_a" =
      some { id := 7, reference := "dep_a", wallet_id := 1, user_id := 1,
             type := .deposit, direction := .credit, amount := 500,
             status := .failed, related_tx_id := none, extra := none } := by
  exact deposit_gateway_failure_marks_failed 500 1 7 "dep_a" (.exn "timeout") exDB
    exWalletA (by decide) rfl rfl (Or.inr ⟨"timeout", rfl⟩)

/-- Claim C4: a transfer request whose amount strictly exceeds the
sender's balance is answered with the non-fatal InsufficientFunds
response reporting the current balance and the required amount as
context, and the committed database is exactly the one before the
request: both wallets' balances unchanged and no transaction row
created. -/
theorem transfer_insufficient_no_mutation (req : TransferRequest) (uid : Nat)
    (ref : String) (did cid : Nat) (db : DB) (sender : Wallet)
    (hamt : 0 < req.amount)
    (hs : fetchWalletByUser db uid = some sender)
    (hbal : sender.balance < req.amount) :
    transfer_funds req uid ref did cid db =
      (.insufficient sender.balance req.amount, db) := by
  unfold transfer_funds
  simp only [hs, if_neg (by omega : ¬ req.amount ≤ 0), if_pos hbal]

/-- Claim C4 witness: asking wallet 1 (balance 5000) to send 9000 kobo
returns the contextual failure and leaves the ledger untouched. -/
theorem transfer_insufficient_no_mutation_witness :
    transfer_funds { wallet_number := "B-001", amount := 9000 } 1 "txf_a" 10 11 exDB =
      (.insufficient 5000 9000, exDB) := by
  exact transfer_insufficient_no_mutation { wallet_number := "B-001", amount := 9000 }
    1 "txf_a" 10 11 exDB exWalletA (by decide) rfl (by decide)

/-- Claim C9 counterexample: the handler checks balance sufficiency
before resolving the recipient and before the self-transfer check.  On a
wallet with balance 50, a 100-kobo transfer addressed to the sender's own
wallet number is answered with InsufficientFunds, not with the
self-transfer rejection the claimed ordering requires. -/
theorem transfer_check_order_cex :
    fetchWalletByNumber exDBLow "W1" = fetchWalletByUser exDBLow 1 ∧
    transfer_funds { wallet_number := "W1", amount := 100 } 1 "txf_a" 10 11 exDBLow =
      (.insufficient 50 100, exDBLow) := by
  decide

/-- Claim C9 amended: the validation order actually implemented is
amount positivity, sender resolution, balance sufficiency, recipient
resolution by wallet number, self-transfer rejection.  Consequently a
self-transfer (or an unresolvable recipient) is reported as such only
when the sender's balance covers the amount; with insufficient balance
the request fails with InsufficientFunds instead. -/
theorem transfer_validation_order (req : TransferRequest) (uid : Nat)
    (ref : String) (did cid : Nat) (db : DB) :
    (req.amount ≤ 0 →
      transfer_funds req uid ref did cid db = (.invalidAmount, db)) ∧
    (0 < req.amount → fetchWalletByUser db uid = none →
      transfer_funds req uid ref did cid db = (.senderNotFound, db)) ∧
    (∀ s, 0 < req.amount → fetchWalletByUser db uid = some s →
      s.balance < req.amount →
      transfer_funds req uid ref did cid db =
        (.insufficient s.balance req.amount, db)) ∧
    (∀ s, 0 < req.amount → fetchWalletByUser db uid = some s →
      ¬ s.balance < req.amount →
      fetchWalletByNumber db req.wallet_number = none →
      transfer_funds req uid ref did cid db = (.recipientNotFound, db)) ∧
    (∀ s t, 0 < req.amount → fetchWalletByUser db uid = some s →
      ¬ s.balance < req.amount →
      fetchWalletByNumber db req.wallet_number = some t → t.id = s.id →
      transfer_funds req uid ref did cid db = (.selfTransfer, db)) := by
  refine ⟨fun h0 => ?_, fun h0 h1 => ?_, fun s h0 h1 h2 => ?_,
    fun s h0 h1 h2 h3 => ?_, fun s t h0 h1 h2 h3 h4 => ?_⟩
  · unfold transfer_funds
    rw [if_pos h0]
  · unfold transfer_funds
    simp only [h1, if_neg (by omega : ¬ req.amount ≤ 0)]
  · unfold transfer_funds
    simp only [h1, if_neg (by omega : ¬ req.amount ≤ 0), if_pos h2]
  · unfold transfer_funds
    simp only [h1, h3, if_neg (by omega : ¬ req.amount ≤ 0), if_neg h2]
  · unfold transfer_funds
    simp only [h1, h3, if_neg (by omega : ¬ req.amount ≤ 0), if_neg h2, if_pos h4]

/-- Claim C9 witness: with a sufficient balance of 500, the same
self-addressed 100-kobo transfer is rejected as a self-transfer. -/
theorem transfer_validation_order_witness :
    transfer_funds { wallet_number := "W1", amount := 100 } 1 "txf_a" 10 11 exDBMid =
      (.selfTransfer, exDBMid) := by
  exact (transfer_validation_order { wallet_number := "W1", amount := 100 }
      1 "txf_a" 10 11 exDBMid).2.2.2.2 exWalletMid exWalletMid
    (by decide) rfl (by decide) rfl rfl

/-- Writing back a wallet row with a different id leaves a balance
lookup unchanged. -/
theorem getBalance_update_other (db : DB) (v : Wallet) (k : Nat) (hvk : v.id ≠ k) :
    getBalance (updateWalletRow db v) k = getBalance db k := by
  unfold getBalance fetchWalletById updateWalletRow
  rw [find?_map_update_of_disjoint db.wallets (fun t => t.id == k)
    (fun t => t.id == v.id) v (by simpa using hvk)
    (fun y hy => by
      have : y.id = v.id := by simpa using hy
      simpa [this] using hvk)]

/-- Writing back a wallet row whose id occurs in the table makes the
balance at that id the written row's balance. -/
theorem getBalance_update_self (db : DB) (v : Wallet) (k : Nat)
    (hmem : ∃ x ∈ db.wallets, x.id = k) (hvk : v.id = k) :
    getBalance (updateWalletRow db v) k = some v.balance := by
  obtain ⟨x, hx, hxk⟩ := hmem
  obtain ⟨z, hz, hpz⟩ := find?_of_mem_sat db.wallets (fun t => t.id == k) x hx (by simp [hxk])
  have hzk : z.id = k := by simpa using hpz
  have h := find?_map_update_of_found db.wallets (fun t => t.id == k)
    (fun t => t.id == v.id) v z hz (by simp [hzk, hvk]) (by simp [hvk])
  unfold getBalance fetchWalletById updateWalletRow
  rw [h]
  rfl

/-- Claim C2: a transfer of a positive amount `a` from wallet X to a
distinct wallet Y addressed by its wallet number, with `a ≤ bx`,
succeeds, leaves X at `bx - a` and Y at `by + a`, and appends exactly two
transfer transaction rows — a successful debit on X and a successful
credit on Y with the same amount, mutually linked by back-reference —
committed together with both balance updates in the single returned
state. -/
theorem transfer_success_double_entry (req : TransferRequest) (uid : Nat)
    (ref : String) (did cid : Nat) (db : DB) (X Y : Wallet)
    (hamt : 0 < req.amount)
    (hX : fetchWalletByUser db uid = some X)
    (hbal : ¬ X.balance < req.amount)
    (hY : fetchWalletByNumber db req.wallet_number = some Y)
    (hne : Y.id ≠ X.id) :
    (transfer_funds req uid ref did cid db).1 =
      .success ref req.amount req.wallet_number ∧
    getBalance (transfer_funds req uid ref did cid db).2 X.id =
      some (X.balance - req.amount) ∧
    getBalance (transfer_funds req uid ref did cid db).2 Y.id =
      some (Y.balance + req.amount) ∧
    (transfer_funds req uid ref did cid db).2.transactions =
      db.transactions ++
        [mkDebitTx did ref X uid req.amount req.wallet_number cid,
         mkCreditTx cid ref Y req.amount X.wallet_number did] ∧
    (mkDebitTx did ref X uid req.amount req.wallet_number cid).type = .transfer ∧
    (mkCreditTx cid ref Y req.amount X.wallet_number did).type = .transfer ∧
    (mkDebitTx did ref X uid req.amount req.wallet_number cid).amount =
      (mkCreditTx cid ref Y req.amount X.wallet_number did).amount ∧
    (mkDebitTx did ref X uid req.amount req.wallet_number cid).direction = .debit ∧
    (mkCreditTx cid ref Y req.amount X.wallet_number did).direction = .credit ∧
    (mkDebitTx did ref X uid req.amount req.wallet_number cid).wallet_id = X.id ∧
    (mkCreditTx cid ref Y req.amount X.wallet_number did).wallet_id = Y.id ∧
    (mkDebitTx did ref X uid req.amount req.wallet_number cid).status = .success ∧
    (mkCreditTx cid ref Y req.amount X.wallet_number did).status = .success ∧
    (mkDebitTx did ref X uid req.amount req.wallet_number cid).related_tx_id =
      some (mkCreditTx cid ref Y req.amount X.wallet_number did).id ∧
    (mkCreditTx cid ref Y req.amount X.wallet_number did).related_tx_id =
      some (mkDebitTx did ref X uid req.amount req.wallet_number cid).id := by
  have heq : transfer_funds req uid ref did cid db =
      (.success ref req.amount req.wallet_number,
       updateWalletRow
         (updateWalletRow
           (insertTransaction
             (insertTransaction db (mkDebitTx did ref X uid req.amount req.wallet_number cid))
             (mkCreditTx cid ref Y req.amount X.wallet_number did))
           { X with balance := X.balance - req.amount })
         (Wallet.credit Y req.amount)) := by
    unfold transfer_funds
    simp only [hX, hY, Wallet.debit]
    rw [if_neg (by omega : ¬ req.amount ≤ 0), if_neg hbal, if_neg hne,
      if_neg (by omega : ¬ X.balance - req.amount < 0)]
  have hXmem : X ∈ db.wallets := by
    have := List.mem_of_find?_eq_some hX
    simpa [fetchWalletByUser] using this
  have hYmem : Y ∈ db.wallets := by
    have := List.mem_of_find?_eq_some hY
    simpa [fetchWalletByNumber] using this
  rw [heq]
  refine ⟨rfl, ?_, ?_, ?_, rfl, rfl, rfl, rfl, rfl, rfl, rfl, rfl, rfl, rfl, rfl⟩
  · rw [getBalance_update_other _ _ _ (show (Wallet.credit Y req.amount).id ≠ X.id from hne)]
    exact getBalance_update_self _
      { X with balance := X.balance - req.amount } X.id ⟨X, hXmem, rfl⟩ rfl
  · refine Eq.trans (getBalance_update_self _ (Wallet.credit Y req.amount) Y.id
      ⟨Y, ?_, rfl⟩ rfl) rfl
    show Y ∈ List.map _ _
    refine List.mem_map.mpr ⟨Y, hYmem, ?_⟩
    simp [show (Y.id == ({ X with balance := X.balance - req.amount } : Wallet).id) = false
      from by simpa using hne]
  · simp [insertTransaction, updateWalletRow]

/-- Claim C2 witness: the spec's concrete scenario — wallet 1 at 5000
kobo sends 2000 to wallet `B-001` at 0 — ends at 3000 and 2000 with the
two linked rows appended. -/
theorem transfer_success_double_entry_witness :
    (transfer_funds exTReq 1 "txf_a" 10 11 exDB).1 = .success "txf_a" 2000 "B-001" ∧
    getBalance (transfer_funds exTReq 1 "txf_a" 10 11 exDB).2 1 = some (5000 - 2000) ∧
    getBalance (transfer_funds exTReq 1 "txf_a" 10 11 exDB).2 2 = some (0 + 2000) ∧
    (transfer_funds exTReq 1 "txf_a" 10 11 exDB).2.transactions =
      exDB.transactions ++
        [mkDebitTx 10 "txf_a" exWalletA 1 2000 "B-001" 11,
         mkCreditTx 11 "txf_a" exWalletB 2000 "W1" 10] := by
  have h := transfer_success_double_entry exTReq 1 "txf_a" 10 11 exDB
    exWalletA exWalletB (by decide) rfl (by decide) rfl (by decide)
  exact ⟨h.1, h.2.1, h.2.2.1, h.2.2.2.1⟩

/-- Claim C3 counterexample: reconciliation credits the raw
event-reported amount without a positivity check, so a validly signed
`charge.success` event reporting amount -5 for a pending deposit drives
the zero-balance wallet to -5: the nonnegativity invariant is not
preserved by every webhook reconciliation. -/
theorem balance_nonneg_cex :
    (∀ w ∈ exDBZero.wallets, 0 ≤ w.balance) ∧
    getBalance (applyOp (.webhook vTrue exReqNeg) exDBZero) 1 = some (-5) := by
  decide

/-- Claim C3 amended: every operation — deposit initiation, webhook
reconciliation, transfer — preserves nonnegativity of all wallet
balances, provided any amount the webhook event reports is nonnegative
(the handler itself never checks this). -/
theorem balance_nonneg_preserved (op : Op) (db : DB)
    (h0 : ∀ w ∈ db.wallets, 0 ≤ w.balance)
    (h1 : opAmountsNonneg op) :
    ∀ w ∈ (applyOp op db).wallets, 0 ≤ w.balance := by
  cases op with
  | deposit a u t r g =>
    intro w hw
    rw [applyOp, deposit_wallets_unchanged] at hw
    exact h0 w hw
  | webhook v r =>
    simp only [applyOp]
    unfold paystack_webhook
    dsimp only
    split
    · exact h0
    · split
      · exact h0
      · split
        · exact h0
        · split
          · exact h0
          · split
            · exact h0
            · split
              · exact h0
              · split
                · exact h0
                · split
                  · split
                    · exact h0
                    next a hamt =>
                      split
                      next w hfw =>
                        intro y hy
                        rcases mem_map_update hy with rfl | hy1
                        · have hwmem : w ∈ db.wallets := by
                            have := List.mem_of_find?_eq_some hfw
                            simpa [fetchWalletById] using this
                          have hw0 := h0 w hwmem
                          have ha0 : (0 : Int) ≤ a := h1 a hamt
                          show (0 : Int) ≤ w.balance + a
                          omega
                        · exact h0 y hy1
                      · exact h0
                  · exact h0
  | transfer r u rf d c =>
    simp only [applyOp]
    unfold transfer_funds
    dsimp only
    split
    · exact h0
    next hpos =>
      split
      · exact h0
      next sender hsender =>
        split
        · exact h0
        next hbal =>
          split
          · exact h0
          next recipient hrecip =>
            split
            · exact h0
            next hne =>
              split
              · exact h0
              next sender1 hdeb =>
                intro y hy
                rcases mem_map_update hy with rfl | hy1
                · have hrmem : recipient ∈ db.wallets := by
                    have := List.mem_of_find?_eq_some hrecip
                    simpa [fetchWalletByNumber] using this
                  have hr0 := h0 recipient hrmem
                  show (0 : Int) ≤ recipient.balance + r.amount
                  omega
                rcases mem_map_update hy1 with heq1 | hy2
                · unfold Wallet.debit at hdeb
                  split at hdeb
                  · exact absurd hdeb (by simp)
                  next hnn =>
                    have hs1 : ({ sender with balance := sender.balance - r.amount } : Wallet)
                        = sender1 := by simpa using hdeb
                    rw [heq1, ← hs1]
                    show (0 : Int) ≤ sender.balance - r.amount
                    omega
                · exact h0 y hy2

/-- Claim C3 witness: the 2000-kobo transfer on the example ledger keeps
every balance nonnegative. -/
theorem balance_nonneg_preserved_witness :
    (∀ w ∈ exDB.wallets, 0 ≤ w.balance) ∧
    ∀ w ∈ (applyOp (.transfer exTReq 1 "txf_a" 10 11) exDB).wallets, 0 ≤ w.balance := by
  exact ⟨by decide, balance_nonneg_preserved (.transfer exTReq 1 "txf_a" 10 11) exDB
    (by decide) trivial⟩

end WalletService
